import Mathlib

/-!
Shallow embedding of `src/worker.js` (a Telegram channel-update relay running
as a Cloudflare Worker).  The worker's state, the webhook handlers
(`handleMyChatMember`, `handleMessage`, `handleCallbackQuery`), the control
panel rendering, the `/api/kick` endpoint and the state loader are translated
into pure Lean functions.  JavaScript object mutation becomes explicit state
passing; the calls to the Telegram HTTP API become an explicit effect list;
`Date.now()` becomes a `now : Nat` parameter (milliseconds).
-/

namespace Worker

/-- A Telegram user; only the `id` field is consulted by the worker. -/
structure User where
  id : Int
deriving Repr, DecidableEq

/-- A Telegram chat as read by the worker: numeric id, the `type` string
(`"private"`, `"group"`, `"supergroup"`, `"channel"`, ...), and the optional
`title` / `username` fields. -/
structure Chat where
  id : Int
  type : String
  title : Option String
  username : Option String
deriving Repr, DecidableEq

/-- One monitored channel's record, as stored in `state.channels[chat.id]`:
`{ title, paused, lastMediaGroupId, lastMediaGroupTs }`. -/
structure Chan where
  title : String
  paused : Bool
  lastMediaGroupId : Option String
  lastMediaGroupTs : Nat
deriving Repr, DecidableEq

/-- The persisted worker state `{ globalPaused, channels }`.  The JS object
`state.channels` (unique keys, insertion order) is embedded as an association
list from chat id to record. -/
structure State where
  globalPaused : Bool
  channels : List (Int × Chan)
deriving Repr, DecidableEq

/-- The environment bindings the handlers consult.  `TARGET_CHAT_ID` is
`none` when the variable is unset/empty (falsy in JS). -/
structure Env where
  TARGET_CHAT_ID : Option Int
deriving Repr, DecidableEq

/-- Button of an inline keyboard: `{ text, callback_data }`. -/
structure Button where
  text : String
  callback_data : String
deriving Repr, DecidableEq

/-- Keyboard object `{ inline_keyboard: rows }` as produced by `buildKeyboard`. -/
structure InlineKeyboard where
  inline_keyboard : List (List Button)
deriving Repr, DecidableEq

/-- Outbound Telegram API calls issued by a handler, in program order.
`sendMessage` carries the `chat_id` payload field (which the source passes
through unchecked, hence `Option Int`), the text, and the optional
`reply_markup`. -/
inductive Eff where
  | sendMessage (chat_id : Option Int) (text : String) (reply_markup : Option InlineKeyboard)
  | answerCallbackQuery (callback_query_id : String) (text : String)
  | editMessageReplyMarkup (chat_id : Int) (message_id : Int) (reply_markup : InlineKeyboard)
deriving Repr, DecidableEq

/-- Map access `state.channels[k]`: first (only, keys are unique) binding for `k`. -/
def lookupChan : List (Int × Chan) → Int → Option Chan
  | [], _ => none
  | p :: rest, k => if p.1 = k then some p.2 else lookupChan rest k

/-- Overwrite the record stored at key `k` (JS in-place mutation of
`state.channels[k]`). Leaves the list unchanged when `k` is absent. -/
def setChan : List (Int × Chan) → Int → Chan → List (Int × Chan)
  | [], _, _ => []
  | p :: rest, k, c => if p.1 = k then (k, c) :: rest else p :: setChan rest k c

/-- Key deletion `delete state.channels[k]`. -/
def removeChan : List (Int × Chan) → Int → List (Int × Chan)
  | [], _ => []
  | p :: rest, k => if p.1 = k then removeChan rest k else p :: removeChan rest k

/-- The key set of the channels map. -/
def keysOf (l : List (Int × Chan)) : List Int := l.map (fun p => p.1)

/-- Fallback chain `chat.title ?? chat.username ?? String(chat.id)`: the display-name fallback
chain used both for stored titles and for notification text. -/
def chatDisplay (chat : Chat) : String :=
  match chat.title with
  | some t => t
  | none =>
    match chat.username with
    | some u => u
    | none => toString chat.id

/-- Guard `env.TARGET_CHAT_ID && Number(chat.id) === Number(env.TARGET_CHAT_ID)`. -/
def targetIs (env : Env) (chatId : Int) : Bool :=
  match env.TARGET_CHAT_ID with
  | some t => decide (chatId = t)
  | none => false

/-- Source `isAdmin(from, adminIds)`: false for a missing sender, otherwise
membership of the sender's id in the parsed admin list. -/
def isAdmin (fromUser : Option User) (adminIds : List Int) : Bool :=
  match fromUser with
  | none => false
  | some u => decide (u.id ∈ adminIds)

/-- The record `ensureChannel` creates for a newly observed chat. -/
def freshChan (chat : Chat) : Chan :=
  { title := chatDisplay chat, paused := false
    lastMediaGroupId := none, lastMediaGroupTs := 0 }

/-- Source `ensureChannel(state, chat)`: create a default record when absent (JS
appends the new key), otherwise refresh the stored title when `chat.title`
is truthy and differs.  Returns the updated state together with the record
the source holds a reference to. -/
def ensureChannel (state : State) (chat : Chat) : State × Chan :=
  match lookupChan state.channels chat.id with
  | none =>
    ({ state with channels := state.channels ++ [(chat.id, freshChan chat)] }, freshChan chat)
  | some c =>
    match chat.title with
    | some t =>
      if t ≠ "" ∧ c.title ≠ t then
        ({ state with channels := setChan state.channels chat.id { c with title := t } },
         { c with title := t })
      else (state, c)
    | none => (state, c)

/-- Source `notifyAdmins(env, adminIds, text)`: one `sendMessage` per admin id. -/
def notifyAdmins (adminIds : List Int) (text : String) : List Eff :=
  if adminIds.isEmpty then []
  else adminIds.map (fun i => Eff.sendMessage (some i) text none)

/-- The `my_chat_member` event payload: `{ chat, new_chat_member: { status } }`. -/
structure NewChatMember where
  status : String
deriving Repr, DecidableEq

structure MemberEvent where
  chat : Option Chat
  new_chat_member : Option NewChatMember
deriving Repr, DecidableEq

/-- Source `handleMyChatMember(event, state, env, adminIds)`: the membership state
machine.  Returns the mutated state and the Telegram calls issued. -/
def handleMyChatMember (event : MemberEvent) (state : State) (env : Env)
    (adminIds : List Int) : State × List Eff :=
  match event.chat, event.new_chat_member with
  | some chat, some ncm =>
    if targetIs env chat.id then (state, [])
    else
      if ncm.status = "administrator" ∨ ncm.status = "member" then
        if ¬ (lookupChan state.channels chat.id).isSome then
          ((ensureChannel state chat).1,
           notifyAdmins adminIds (chatDisplay chat ++ " 已加入监听列表"))
        else
          ((ensureChannel state chat).1, [])
      else if ncm.status = "left" ∨ ncm.status = "kicked" then
        if (lookupChan state.channels chat.id).isSome then
          ({ state with channels := removeChan state.channels chat.id },
           notifyAdmins adminIds (chatDisplay chat ++ " 已移除监听列表"))
        else (state, [])
      else (state, [])
  | _, _ => (state, [])

/-- Source `buildKeyboard(state)`: the global toggle row followed by one row per
monitored channel.  `label.slice(0, 30)` is embedded as `String.take 30`
(JS slices UTF-16 units; the claims do not depend on the exact cut). -/
def buildKeyboard (state : State) : InlineKeyboard :=
  { inline_keyboard :=
      [{ text := if state.globalPaused then "▶️ 恢复全部" else "⏸️ 暂停全部"
         callback_data := "toggle:global" }]
      :: state.channels.map (fun p =>
        [{ text := ((if p.2.paused then "▶️" else "⏸️") ++ " " ++ p.2.title).take 30
           callback_data := "toggle:" ++ toString p.1 }]) }

/-- Source `renderStatus(state)`: the textual panel summary. -/
def renderStatus (state : State) : String :=
  String.intercalate "\n"
    (("全局状态：" ++ (if state.globalPaused then "⏸️ 已暂停" else "▶️ 运行中"))
      :: (if state.channels.isEmpty then ["暂无已加入的频道/群。"]
          else "频道列表：" :: state.channels.map (fun p =>
            "- " ++ (if p.2.paused then "⏸️" else "▶️") ++ " " ++ p.2.title
              ++ " (" ++ toString p.1 ++ ")")))

/-- Window `10 * 60 * 1000`: the album-dedup window in milliseconds. -/
def dedupWindowMs : Nat := 10 * 60 * 1000

/-- The inline dedup condition of `handleMessage`:
`channel.lastMediaGroupId === mediaGroupId && now - (channel.lastMediaGroupTs ?? 0) < windowMs`.
In this embedding `lastMediaGroupTs` is always set (initialised to 0), so the
`?? 0` is implicit; `now - ts` is natural subtraction, which agrees with the
JS comparison whenever `ts ≤ now` and also suppresses (as JS does, via a
negative difference) when `ts > now`. -/
def dedupSuppress (channel : Chan) (mediaGroupId : String) (now : Nat) : Bool :=
  decide (channel.lastMediaGroupId = some mediaGroupId)
    && decide (now - channel.lastMediaGroupTs < dedupWindowMs)

/-- A `message` / `channel_post` payload: chat, optional sender, optional
`media_group_id` (a string in the Telegram API; JS truthiness of the field is
`≠ ""` for a present string). -/
structure MsgEvent where
  chat : Option Chat
  fromUser : Option User
  media_group_id : Option String
deriving Repr, DecidableEq

/-- Source `handleMessage(message, state, env, adminIds)` with `Date.now() = now`.
The single `ensureChannel` call of the source (whose returned object is then
mutated in place) is written out by re-applying `ensureChannel state chat`;
the dedup-cursor mutation becomes `setChan` on the ensured state. -/
def handleMessage (message : MsgEvent) (state : State) (env : Env)
    (adminIds : List Int) (now : Nat) : State × List Eff :=
  match message.chat with
  | none => (state, [])
  | some chat =>
    if chat.type = "private" ∧ isAdmin message.fromUser adminIds then
      (state, [Eff.sendMessage (some chat.id) (renderStatus state) (some (buildKeyboard state))])
    else if ¬ (chat.type ∈ ["channel", "supergroup", "group"]) then (state, [])
    else if targetIs env chat.id then (state, [])
    else if (ensureChannel state chat).1.globalPaused ∨ (ensureChannel state chat).2.paused then
      ((ensureChannel state chat).1, [])
    else
      match message.media_group_id with
      | some g =>
        if g = "" then
          ((ensureChannel state chat).1,
           [Eff.sendMessage env.TARGET_CHAT_ID (chatDisplay chat ++ " 💌已更新") none])
        else if dedupSuppress (ensureChannel state chat).2 g now then
          ((ensureChannel state chat).1, [])
        else
          ({ (ensureChannel state chat).1 with
               channels := setChan (ensureChannel state chat).1.channels chat.id
                 { (ensureChannel state chat).2 with
                     lastMediaGroupId := some g, lastMediaGroupTs := now } },
           [Eff.sendMessage env.TARGET_CHAT_ID (chatDisplay chat ++ " 💌已更新") none])
      | none =>
        ((ensureChannel state chat).1,
         [Eff.sendMessage env.TARGET_CHAT_ID (chatDisplay chat ++ " 💌已更新") none])

/-- The `callback_query.message` reference as far as the worker reads it. -/
structure CbMessage where
  chat : Option Chat
  message_id : Option Int
deriving Repr, DecidableEq

/-- A `callback_query` payload. `fromUser` embeds the JS `from` field. -/
structure CallbackQuery where
  id : String
  fromUser : Option User
  data : Option String
  message : Option CbMessage
deriving Repr, DecidableEq

/-- Prefix test mirroring JS `s.startsWith(pre)` on character lists (structurally
recursive so that concrete instances evaluate in the kernel). -/
def listStarts : List Char → List Char → Bool
  | _, [] => true
  | [], _ :: _ => false
  | c :: cs, p :: ps => decide (c = p) && listStarts cs ps

def strStarts (s pre : String) : Bool := listStarts s.data pre.data

/-- Split mirroring JS `s.split(sep)` for a one-character separator, on character lists. -/
def splitOnChar (sep : Char) : List Char → List (List Char)
  | [] => [[]]
  | c :: cs =>
    if c = sep then [] :: splitOnChar sep cs
    else
      match splitOnChar sep cs with
      | [] => [[c]]
      | h :: t => (c :: h) :: t

def digitVal (c : Char) : Option Nat :=
  if c.isDigit then some (c.toNat - 48) else none

def parseNatAux : List Char → Nat → Option Nat
  | [], acc => some acc
  | c :: cs, acc =>
    match digitVal c with
    | some d => parseNatAux cs (acc * 10 + d)
    | none => none

def parseNatDigits : List Char → Option Nat
  | [] => none
  | cs => parseNatAux cs 0

/-- JS `Number(str)` for the shapes that occur (optionally signed decimal
integer strings): `Number("") = 0`, non-numeric text gives `NaN` (embedded
as `none`, on which the channel lookup fails exactly as
`state.channels[NaN]` does).  Whitespace trimming and fractional forms are
outside the id domain and not modelled. -/
def jsNumber (s : String) : Option Int :=
  match s.data with
  | [] => some 0
  | '-' :: rest => (parseNatDigits rest).map (fun n => -(n : Int))
  | '+' :: rest => (parseNatDigits rest).map (fun n => (n : Int))
  | cs => (parseNatDigits cs).map (fun n => (n : Int))

/-- Channel-id extraction `Number(data.split(":")[1])`. -/
def parseChannelId (data : String) : Option Int :=
  jsNumber (String.mk ((splitOnChar ':' data.data).getD 1 []))

/-- Source `updateManageMessage(callback, state, env)`: re-render the stored-state
keyboard onto the originating message; skipped when
`callback.message?.chat?.id` or `callback.message?.message_id` is missing or
falsy (`0`). -/
def updateManageMessage (callback : CallbackQuery) (state : State) : List Eff :=
  match (callback.message.bind (fun m => m.chat)).map (fun c => c.id),
        callback.message.bind (fun m => m.message_id) with
  | some chatId, some messageId =>
    if chatId = 0 ∨ messageId = 0 then []
    else [Eff.editMessageReplyMarkup chatId messageId (buildKeyboard state)]
  | _, _ => []

/-- Source `handleCallbackQuery(callback, state, env)`: the toggle dispatcher
(already authorised by the entry point). -/
def handleCallbackQuery (callback : CallbackQuery) (state : State) (env : Env) :
    State × List Eff :=
  if callback.data.getD "" = "toggle:global" then
    ({ state with globalPaused := !state.globalPaused },
     Eff.answerCallbackQuery callback.id
         (if !state.globalPaused then "已暂停全部" else "已恢复全部")
       :: updateManageMessage callback { state with globalPaused := !state.globalPaused })
  else if strStarts (callback.data.getD "") "toggle:" then
    match parseChannelId (callback.data.getD "") with
    | none => (state, [Eff.answerCallbackQuery callback.id "频道不存在"])
    | some channelId =>
      match lookupChan state.channels channelId with
      | none => (state, [Eff.answerCallbackQuery callback.id "频道不存在"])
      | some channel =>
        ({ state with
             channels := setChan state.channels channelId { channel with paused := !channel.paused } },
         Eff.answerCallbackQuery callback.id
             (if !channel.paused then "已暂停该频道" else "已恢复该频道")
           :: updateManageMessage callback
                { state with
                    channels := setChan state.channels channelId { channel with paused := !channel.paused } })
  else (state, [])

/-- The webhook update kinds the `fetch` entry point dispatches on
(`message` and `channel_post` are routed identically, so share one
constructor). -/
inductive UpdateEvent where
  | myChatMember (e : MemberEvent)
  | callbackQuery (cb : CallbackQuery)
  | message (m : MsgEvent)
deriving Repr, DecidableEq

/-- The `fetch` dispatch for one webhook delivery: the admin gate in front of
`handleCallbackQuery` answers `无权操作` and leaves the state untouched. -/
def processUpdate (u : UpdateEvent) (state : State) (env : Env)
    (adminIds : List Int) (now : Nat) : State × List Eff :=
  match u with
  | .myChatMember e => handleMyChatMember e state env adminIds
  | .callbackQuery cb =>
    if ¬ isAdmin cb.fromUser adminIds then
      (state, [Eff.answerCallbackQuery cb.id "无权操作"])
    else handleCallbackQuery cb state env
  | .message m => handleMessage m state env adminIds now

/-- Fold a sequence of webhook deliveries (each with its own wall-clock time)
through `processUpdate`, keeping the persisted state. -/
def runUpdates (evs : List (UpdateEvent × Nat)) (state : State) (env : Env)
    (adminIds : List Int) : State :=
  match evs with
  | [] => state
  | (u, now) :: rest => runUpdates rest (processUpdate u state env adminIds now).1 env adminIds

/-- JSON values, for the persistence boundary (`JSON.parse` output). -/
inductive Json where
  | null
  | bool (b : Bool)
  | num (n : Int)
  | str (s : String)
  | arr (elems : List Json)
  | obj (fields : List (String × Json))

/-- What `STATE_KV.get(STATE_KEY)` followed by `JSON.parse` can produce:
no blob (or a falsy raw string), a raw string `JSON.parse` throws on, or a
successfully parsed JSON value. -/
inductive KvBlob where
  | absent
  | unparseable
  | parsed (value : Json)

/-- The fresh default `{ globalPaused: false, channels: {} }` as JSON. -/
def defaultStateJson : Json :=
  Json.obj [("globalPaused", Json.bool false), ("channels", Json.obj [])]

/-- Source `loadState(env)`: missing blob or parse failure falls back to the fresh
default; a successfully parsed value is returned verbatim, with no shape
validation. -/
def loadState : KvBlob → Json
  | .absent => defaultStateJson
  | .unparseable => defaultStateJson
  | .parsed v => v

/-- Field access on a JSON object (first binding wins, as in a JS object). -/
def jsGetField : List (String × Json) → String → Option Json
  | [], _ => none
  | (k, v) :: rest, key => if k = key then some v else jsGetField rest key

/-- Decode one channel record; `none` when the JSON does not have the
record's shape. -/
def decodeChan (j : Json) : Option Chan :=
  match j with
  | .obj fs =>
    match jsGetField fs "title", jsGetField fs "paused",
          jsGetField fs "lastMediaGroupId", jsGetField fs "lastMediaGroupTs" with
    | some (.str t), some (.bool p), some gid, some (.num ts) =>
      if 0 ≤ ts then
        match gid with
        | .null => some { title := t, paused := p, lastMediaGroupId := none, lastMediaGroupTs := ts.toNat }
        | .str s => some { title := t, paused := p, lastMediaGroupId := some s, lastMediaGroupTs := ts.toNat }
        | _ => none
      else none
    | _, _, _, _ => none
  | _ => none

def decodeChannels : List (String × Json) → Option (List (Int × Chan))
  | [] => some []
  | (k, v) :: rest =>
    match k.toInt?, decodeChan v, decodeChannels rest with
    | some id, some c, some cs => some ((id, c) :: cs)
    | _, _, _ => none

/-- Decode a persisted blob into a well-formed `State`; `none` when the JSON
does not have the `{ globalPaused, channels }` shape the handlers operate
on. -/
def decodeState (j : Json) : Option State :=
  match j with
  | .obj fs =>
    match jsGetField fs "globalPaused", jsGetField fs "channels" with
    | some (.bool g), some (.obj chs) =>
      match decodeChannels chs with
      | some cs => some { globalPaused := g, channels := cs }
      | none => none
    | _, _ => none
  | _ => none

/-- JS truthiness of a JSON value (`0`, `""`, `false`, `null` are falsy). -/
def jsTruthy : Json → Bool
  | .null => false
  | .bool b => b
  | .num n => decide (n ≠ 0)
  | .str s => !s.isEmpty
  | .arr _ => true
  | .obj _ => true

/-- Truthiness of `body.user_id`, where `none` models an absent field
(`undefined`). -/
def jsTruthyField : Option Json → Bool
  | none => false
  | some j => jsTruthy j

/-- Template interpolation of the user id, for the id shapes that occur (numbers
and strings; collection display is abstracted, ids are never collections). -/
def jsDisplay : Json → String
  | .null => "null"
  | .bool b => if b then "true" else "false"
  | .num n => toString n
  | .str s => s
  | .arr _ => ""
  | .obj _ => "[object Object]"

/-- The parsed `/api/kick` request body; `user_id` is whatever JSON value the
caller supplied, or `none` when the field is absent. -/
structure KickBody where
  user_id : Option Json

/-- Result of one `banChatMember` call (`{ ok, description }` from the
Telegram API). -/
structure BanOutcome where
  ok : Bool
  description : String
deriving Repr, DecidableEq

/-- One entry of the kick response's `results` array.  The source emits the
registry key as `chat_id`; it is an `Int` here (JS `Object.keys` yields its
decimal-string form). -/
structure KickEntry where
  chat_id : Int
  title : String
  success : Bool
  error : Option String
deriving Repr, DecidableEq

/-- The `summary` object `{ total, success, failed }`. -/
structure KickSummary where
  total : Nat
  success : Nat
  failed : Nat
deriving Repr, DecidableEq

/-- The 200 response body of `/api/kick`.  `summary` is `none` when the
response carries no `summary` field (the empty-registry short-circuit). -/
structure KickOk where
  success : Bool
  message : String
  summary : Option KickSummary
  results : List KickEntry
deriving Repr, DecidableEq

/-- An `/api/kick` HTTP response: `jsonError(message, status)` or a 200
`jsonResult` body. -/
inductive KickResponse where
  | error (status : Nat) (message : String)
  | ok (body : KickOk)
deriving Repr, DecidableEq

/-- The per-channel `results` array built by the `Promise.all` over
`Object.keys(state.channels)` (order preserved). -/
def kickResults (state : State) (ban : Int → BanOutcome) : List KickEntry :=
  state.channels.map (fun p =>
    { chat_id := p.1, title := p.2.title, success := (ban p.1).ok
      error := if (ban p.1).ok then none else some (ban p.1).description })

/-- Success count `results.filter((r) => r.success).length`. -/
def kickSuccessCount (state : State) (ban : Int → BanOutcome) : Nat :=
  ((kickResults state ban).filter (fun r => r.success)).length

/-- Source `handleKickRequest(request, env)`.  `apiKey` is the `X-API-Key` header
(`none` when absent), `kickApiKey` is `env.KICK_API_KEY` (`none` when
unset), `body` is the parsed JSON body (`none` when `request.json()`
throws), `ban` is the `banChatMember` collaborator keyed by chat id.
Returns the response together with the list of chat ids a ban directive was
issued to. -/
def handleKickRequest (apiKey : Option String) (kickApiKey : Option String)
    (body : Option KickBody) (state : State) (ban : Int → BanOutcome) :
    KickResponse × List Int :=
  match kickApiKey with
  | none => (.error 401 "Unauthorized", [])
  | some key =>
    if key = "" then (.error 401 "Unauthorized", [])
    else if apiKey ≠ some key then (.error 401 "Unauthorized", [])
    else
      match body with
      | none => (.error 400 "Invalid JSON body", [])
      | some b =>
        if ¬ jsTruthyField b.user_id then (.error 400 "Missing user_id", [])
        else if state.channels.isEmpty then
          (.ok { success := true, message := "No channels to kick from",
                 summary := none, results := [] }, [])
        else
          (.ok { success := true
                 message := "Kicked user " ++ jsDisplay (b.user_id.getD Json.null)
                   ++ " from " ++ toString (kickSuccessCount state ban)
                   ++ "/" ++ toString (kickResults state ban).length ++ " channels"
                 summary := some { total := (kickResults state ban).length
                                   success := kickSuccessCount state ban
                                   failed := (kickResults state ban).length - kickSuccessCount state ban }
                 results := kickResults state ban },
           keysOf state.channels)

/-- Is this effect an outbound `sendMessage` call? -/
def isSend : Eff → Bool
  | .sendMessage _ _ _ => true
  | _ => false

/-- Number of `sendMessage` calls in an effect list (under the hypotheses of
the dedup claims these are exactly the notifications to the target chat). -/
def countSends (effs : List Eff) : Nat := (effs.filter isSend).length

/-- Statement abbreviation for `ensureChannel`'s title-refresh rule on an
existing record: the title is overwritten exactly when the observed
`chat.title` is truthy and differs; no other field changes. -/
def refreshTitle (r : Chan) (chat : Chat) : Chan :=
  match chat.title with
  | some t => if t ≠ "" ∧ r.title ≠ t then { r with title := t } else r
  | none => r

/-- Conclusion of claim C1 as amended (see `c1_dedup_bookkeeping`): on a
grouped post, the dedup cursor is written (exactly once, to this group id
and event time) when no pause flag blocks the event, while a set pause flag
makes the handler return before the dedup bookkeeping, leaving the stored
cursor exactly as `ensureChannel` found it. -/
def C1Prop (m : MsgEvent) (chat : Chat) (g : String) (s : State) (env : Env)
    (adm : List Int) (now : Nat) : Prop :=
  (¬ ((ensureChannel s chat).1.globalPaused ∨ (ensureChannel s chat).2.paused) →
    ¬ dedupSuppress (ensureChannel s chat).2 g now = true →
    lookupChan (handleMessage m s env adm now).1.channels chat.id
      = some { (ensureChannel s chat).2 with lastMediaGroupId := some g, lastMediaGroupTs := now })
  ∧ (((ensureChannel s chat).1.globalPaused ∨ (ensureChannel s chat).2.paused) →
    handleMessage m s env adm now = ((ensureChannel s chat).1, []))
  ∧ (∀ r, lookupChan s.channels chat.id = some r →
    (ensureChannel s chat).2.lastMediaGroupId = r.lastMediaGroupId
    ∧ (ensureChannel s chat).2.lastMediaGroupTs = r.lastMediaGroupTs)

/-- Conclusion of claim C5 as amended (see `c5_dedup_window`): with both
events unmuted and carrying the same truthy group id, a second event within
the window yields at most one notification; when the gap reaches the window
AND the first event is not itself suppressed by the record's pre-existing
cursor, both notify; and the first event is dropped exactly when the dedup
gate suppresses it. -/
def C5Prop (m1 m2 : MsgEvent) (chat : Chat) (g : String) (s : State) (env : Env)
    (adm : List Int) (t1 t2 : Nat) : Prop :=
  (t2 - t1 < dedupWindowMs →
    countSends ((handleMessage m1 s env adm t1).2
      ++ (handleMessage m2 (handleMessage m1 s env adm t1).1 env adm t2).2) ≤ 1)
  ∧ (¬ dedupSuppress (ensureChannel s chat).2 g t1 = true → dedupWindowMs ≤ t2 - t1 →
    countSends ((handleMessage m1 s env adm t1).2
      ++ (handleMessage m2 (handleMessage m1 s env adm t1).1 env adm t2).2) = 2)
  ∧ (countSends (handleMessage m1 s env adm t1).2 = 0
      ↔ dedupSuppress (ensureChannel s chat).2 g t1 = true)

/-- Conclusion of claim C6 (see `c6_membership_table`): the four-row
membership transition table of `handleMyChatMember`. -/
def C6Prop (e : MemberEvent) (chat : Chat) (ncm : NewChatMember) (s : State)
    (env : Env) (adm : List Int) : Prop :=
  ((ncm.status = "administrator" ∨ ncm.status = "member") →
    (lookupChan s.channels chat.id = none →
      handleMyChatMember e s env adm
        = ({ s with channels := s.channels ++ [(chat.id, freshChan chat)] },
           notifyAdmins adm (chatDisplay chat ++ " 已加入监听列表")))
    ∧ (∀ r, lookupChan s.channels chat.id = some r →
      handleMyChatMember e s env adm
        = ({ s with channels := setChan s.channels chat.id (refreshTitle r chat) }, [])))
  ∧ ((ncm.status = "left" ∨ ncm.status = "kicked") →
    (∀ r, lookupChan s.channels chat.id = some r →
      handleMyChatMember e s env adm
        = ({ s with channels := removeChan s.channels chat.id },
           notifyAdmins adm (chatDisplay chat ++ " 已移除监听列表")))
    ∧ (lookupChan s.channels chat.id = none →
      handleMyChatMember e s env adm = (s, [])))

/-- Conclusion of claim C2 as amended (see `c2_toggle_rerender`): the global
toggle and a channel toggle on an existing record both commit their mutation
and append the re-rendered keyboard of the NEW state to the originating
message (the re-render being skipped exactly when the message reference is
missing or falsy, in which case the mutation still commits); a toggle naming
an unknown channel performs no mutation and no re-render, answering only the
not-found acknowledgment. -/
def C2Prop (cb : CallbackQuery) (s : State) (env : Env) : Prop :=
  (cb.data = some "toggle:global" →
    handleCallbackQuery cb s env
      = ({ s with globalPaused := !s.globalPaused },
         Eff.answerCallbackQuery cb.id (if !s.globalPaused then "已暂停全部" else "已恢复全部")
           :: updateManageMessage cb { s with globalPaused := !s.globalPaused }))
  ∧ (∀ d cid ch, cb.data = some d → d ≠ "toggle:global" → strStarts d "toggle:" = true →
      parseChannelId d = some cid → lookupChan s.channels cid = some ch →
      handleCallbackQuery cb s env
        = ({ s with channels := setChan s.channels cid { ch with paused := !ch.paused } },
           Eff.answerCallbackQuery cb.id (if !ch.paused then "已暂停该频道" else "已恢复该频道")
             :: updateManageMessage cb
                  { s with channels := setChan s.channels cid { ch with paused := !ch.paused } }))
  ∧ (∀ d cid, cb.data = some d → d ≠ "toggle:global" → strStarts d "toggle:" = true →
      parseChannelId d = some cid → lookupChan s.channels cid = none →
      handleCallbackQuery cb s env = (s, [Eff.answerCallbackQuery cb.id "频道不存在"]))
  ∧ (∀ s' msg c mi, cb.message = some msg → msg.chat = some c → msg.message_id = some mi →
      ¬ (c.id = 0 ∨ mi = 0) →
      updateManageMessage cb s' = [Eff.editMessageReplyMarkup c.id mi (buildKeyboard s')])
  ∧ (∀ s', cb.message = none → updateManageMessage cb s' = [])

/-! ### Association-list lemmas -/

theorem lookupChan_setChan {l : List (Int × Chan)} {k : Int} {c₀ : Chan} (c : Chan)
    (h : lookupChan l k = some c₀) : lookupChan (setChan l k c) k = some c := by
  induction l with
  | nil => simp [lookupChan] at h
  | cons p rest ih =>
    by_cases hpk : p.1 = k
    · simp [setChan, lookupChan, hpk]
    · simp only [setChan, lookupChan, hpk, if_false, if_neg hpk] at h ⊢
      exact ih h

theorem setChan_setChan (l : List (Int × Chan)) (k : Int) (c₁ c₂ : Chan) :
    setChan (setChan l k c₁) k c₂ = setChan l k c₂ := by
  induction l with
  | nil => rfl
  | cons p rest ih =>
    by_cases hpk : p.1 = k
    · simp [setChan, hpk]
    · simp [setChan, hpk, ih]

theorem setChan_self {l : List (Int × Chan)} {k : Int} {c : Chan}
    (h : lookupChan l k = some c) : setChan l k c = l := by
  induction l with
  | nil => rfl
  | cons p rest ih =>
    by_cases hpk : p.1 = k
    · simp only [lookupChan, if_pos hpk, Option.some.injEq] at h
      subst h
      simp only [setChan, if_pos hpk]
      rw [← hpk]
    · simp only [lookupChan, if_neg hpk] at h
      simp only [setChan, if_neg hpk, ih h]

theorem keysOf_setChan (l : List (Int × Chan)) (k : Int) (c : Chan) :
    keysOf (setChan l k c) = keysOf l := by
  induction l with
  | nil => rfl
  | cons p rest ih =>
    by_cases hpk : p.1 = k
    · simp [setChan, keysOf, hpk]
    · simp only [setChan, if_neg hpk, keysOf, List.map_cons]
      rw [show (setChan rest k c).map (fun p => p.1) = keysOf (setChan rest k c) from rfl, ih]
      rfl

theorem keysOf_removeChan_subset {l : List (Int × Chan)} {k t : Int}
    (h : t ∈ keysOf (removeChan l k)) : t ∈ keysOf l := by
  induction l with
  | nil => simpa [removeChan, keysOf] using h
  | cons p rest ih =>
    by_cases hpk : p.1 = k
    · simp only [removeChan, if_pos hpk] at h
      exact List.mem_cons_of_mem _ (ih h)
    · simp only [removeChan, if_neg hpk, keysOf, List.map_cons, List.mem_cons] at h ⊢
      rcases h with h | h
      · exact Or.inl h
      · exact Or.inr (ih h)

theorem lookupChan_append_self {l : List (Int × Chan)} {k : Int} (c : Chan)
    (h : lookupChan l k = none) : lookupChan (l ++ [(k, c)]) k = some c := by
  induction l with
  | nil => simp [lookupChan]
  | cons p rest ih =>
    by_cases hpk : p.1 = k
    · simp [lookupChan, hpk] at h
    · simp only [lookupChan, if_neg hpk] at h
      simpa only [List.cons_append, lookupChan, if_neg hpk] using ih h

/-! ### `ensureChannel` lemmas -/

theorem ensureChannel_globalPaused (s : State) (c : Chat) :
    (ensureChannel s c).1.globalPaused = s.globalPaused := by
  unfold ensureChannel
  split
  · rfl
  · split
    · split
      · rfl
      · rfl
    · rfl

theorem ensureChannel_absent {s : State} {c : Chat}
    (h : lookupChan s.channels c.id = none) :
    ensureChannel s c
      = ({ s with channels := s.channels ++ [(c.id, freshChan c)] }, freshChan c) := by
  unfold ensureChannel
  rw [h]

theorem ensureChannel_found_fields {s : State} {c : Chat} {r : Chan}
    (h : lookupChan s.channels c.id = some r) :
    (ensureChannel s c).2.paused = r.paused
    ∧ (ensureChannel s c).2.lastMediaGroupId = r.lastMediaGroupId
    ∧ (ensureChannel s c).2.lastMediaGroupTs = r.lastMediaGroupTs := by
  unfold ensureChannel
  rw [h]
  cases c.title with
  | none => exact ⟨rfl, rfl, rfl⟩
  | some t =>
    by_cases hcond : t ≠ "" ∧ r.title ≠ t
    · simp [if_pos hcond]
    · simp [if_neg hcond]

theorem ensureChannel_found_state {s : State} {c : Chat} {r : Chan}
    (h : lookupChan s.channels c.id = some r) :
    (ensureChannel s c).1
      = { s with channels := setChan s.channels c.id (refreshTitle r c) } := by
  unfold ensureChannel refreshTitle
  rw [h]
  cases c.title with
  | none =>
    simp only
    rw [setChan_self h]
  | some t =>
    by_cases hcond : t ≠ "" ∧ r.title ≠ t
    · simp only [if_pos hcond]
    · simp only [if_neg hcond]
      rw [setChan_self h]

theorem ensureChannel_lookup_self (s : State) (c : Chat) :
    lookupChan (ensureChannel s c).1.channels c.id = some (ensureChannel s c).2 := by
  rcases h : lookupChan s.channels c.id with _ | r
  · rw [ensureChannel_absent h]
    exact lookupChan_append_self _ h
  · rw [ensureChannel_found_state h]
    have h2 : (ensureChannel s c).2 = refreshTitle r c := by
      unfold ensureChannel refreshTitle
      rw [h]
      cases c.title with
      | none => rfl
      | some t =>
        by_cases hcond : t ≠ "" ∧ r.title ≠ t
        · simp only [if_pos hcond]
        · simp only [if_neg hcond]
    rw [h2]
    exact lookupChan_setChan _ h

/-! ### `handleMessage` lemmas -/

theorem type_allowed_ne_private {ty : String}
    (h : ty ∈ ["channel", "supergroup", "group"]) : ty ≠ "private" := by
  intro hp
  subst hp
  exact absurd h (by decide)

/-- Branch-resolved form of `handleMessage` for a grouped post on an
eligible, non-target chat. -/
theorem handleMessage_grouped (m : MsgEvent) (chat : Chat) (g : String) (s : State)
    (env : Env) (adm : List Int) (now : Nat)
    (hc : m.chat = some chat) (hg : m.media_group_id = some g) (hg0 : g ≠ "")
    (hty : chat.type ∈ ["channel", "supergroup", "group"])
    (htgt : targetIs env chat.id = false) :
    handleMessage m s env adm now
      = if (ensureChannel s chat).1.globalPaused ∨ (ensureChannel s chat).2.paused then
          ((ensureChannel s chat).1, [])
        else if dedupSuppress (ensureChannel s chat).2 g now then ((ensureChannel s chat).1, [])
        else
          ({ (ensureChannel s chat).1 with
               channels := setChan (ensureChannel s chat).1.channels chat.id
                 { (ensureChannel s chat).2 with lastMediaGroupId := some g, lastMediaGroupTs := now } },
           [Eff.sendMessage env.TARGET_CHAT_ID (chatDisplay chat ++ " 💌已更新") none]) := by
  have hpriv : ¬ (chat.type = "private" ∧ isAdmin m.fromUser adm) := fun hand =>
    type_allowed_ne_private hty hand.1
  simp [handleMessage, hc, hg, hpriv, hty, htgt, hg0]

/-- Every single `handleMessage` invocation issues at most one
`sendMessage`. -/
theorem countSends_handleMessage_le_one (m : MsgEvent) (s : State) (env : Env)
    (adm : List Int) (now : Nat) : countSends (handleMessage m s env adm now).2 ≤ 1 := by
  rcases hc : m.chat with _ | chat
  · simp [handleMessage, hc, countSends]
  · rcases hg : m.media_group_id with _ | g <;>
      simp only [handleMessage, hc, hg] <;>
      split_ifs <;>
      simp [countSends, isSend]

/-! ### Claim C1 -/

/-- C1 counterexample: a grouped post (group id `"g7"`, not suppressed by
the dedup gate, since the stored cursor is `none`) on a monitored channel
while `globalPaused` is set leaves the record's `lastMediaGroupId` at `none`
and `lastMediaGroupTs` at `0` — the claimed cursor update to the group id
and event time does NOT happen, because the pause check returns before the
dedup bookkeeping. -/
theorem c1_counterexample :
    handleMessage ⟨some ⟨42, "channel", some "N", none⟩, none, some "g7"⟩
        ⟨true, [(42, ⟨"N", false, none, 0⟩)]⟩ ⟨some 999⟩ [] 1000
      = (⟨true, [(42, ⟨"N", false, none, 0⟩)]⟩, [])
    ∧ lookupChan (handleMessage ⟨some ⟨42, "channel", some "N", none⟩, none, some "g7"⟩
        ⟨true, [(42, ⟨"N", false, none, 0⟩)]⟩ ⟨some 999⟩ [] 1000).1.channels 42
      = some ⟨"N", false, none, 0⟩ :=
  ⟨rfl, rfl⟩

/-- C1 as amended: on a grouped post on a monitored channel the dedup cursor
is updated to the group id and event time exactly once — but only when
neither `globalPaused` nor the channel's `paused` flag is set; when either
pause flag is set the handler returns before the dedup bookkeeping and the
cursor keeps exactly the values `ensureChannel` found (so dedup state tracks
unpaused events, not all events seen). -/
theorem c1_dedup_bookkeeping (m : MsgEvent) (chat : Chat) (g : String) (s : State)
    (env : Env) (adm : List Int) (now : Nat)
    (hc : m.chat = some chat) (hg : m.media_group_id = some g) (hg0 : g ≠ "")
    (hty : chat.type ∈ ["channel", "supergroup", "group"])
    (htgt : targetIs env chat.id = false) :
    C1Prop m chat g s env adm now := by
  refine ⟨?_, ?_, ?_⟩
  · intro hp hs
    rw [handleMessage_grouped m chat g s env adm now hc hg hg0 hty htgt,
        if_neg hp, if_neg hs]
    exact lookupChan_setChan _ (ensureChannel_lookup_self s chat)
  · intro hp
    rw [handleMessage_grouped m chat g s env adm now hc hg hg0 hty htgt, if_pos hp]
  · intro r hr
    exact ⟨(ensureChannel_found_fields hr).2.1, (ensureChannel_found_fields hr).2.2⟩

/-- Witness instantiating `c1_dedup_bookkeeping` on a concrete grouped post. -/
theorem c1_dedup_bookkeeping_witness :
    (⟨some ⟨42, "channel", some "N", none⟩, none, some "g1"⟩ : MsgEvent).chat
        = some ⟨42, "channel", some "N", none⟩
    ∧ (⟨some ⟨42, "channel", some "N", none⟩, none, some "g1"⟩ : MsgEvent).media_group_id
        = some "g1"
    ∧ ("g1" : String) ≠ ""
    ∧ ("channel" : String) ∈ ["channel", "supergroup", "group"]
    ∧ targetIs ⟨some 999⟩ 42 = false
    ∧ C1Prop ⟨some ⟨42, "channel", some "N", none⟩, none, some "g1"⟩
        ⟨42, "channel", some "N", none⟩ "g1" ⟨false, []⟩ ⟨some 999⟩ [] 5 :=
  ⟨rfl, rfl, by decide, by decide, by decide,
   c1_dedup_bookkeeping _ _ _ _ _ _ _ rfl rfl (by decide) (by decide) (by decide)⟩

/-! ### Claim C7 -/

/-- C7: an interactive action whose actor is not in the admin set leaves the
state entirely unchanged (`globalPaused` and every record's `paused` keep
their values), and its only observable outcome — before any other processing
of the event, whatever the action tag — is the fixed denial acknowledgment
`无权操作`. -/
theorem c7_unauthorized_no_mutation (cb : CallbackQuery) (state : State) (env : Env)
    (adminIds : List Int) (now : Nat)
    (h : isAdmin cb.fromUser adminIds = false) :
    processUpdate (.callbackQuery cb) state env adminIds now
      = (state, [Eff.answerCallbackQuery cb.id "无权操作"]) := by
  simp [processUpdate, h]

/-- Witness for C7 at a concrete unauthorized callback. -/
theorem c7_unauthorized_no_mutation_witness :
    isAdmin (some ⟨5⟩) [1, 2] = false
    ∧ processUpdate (.callbackQuery ⟨"q1", some ⟨5⟩, some "toggle:global", none⟩)
        ⟨false, [(3, ⟨"A", false, none, 0⟩)]⟩ ⟨none⟩ [1, 2] 0
      = (⟨false, [(3, ⟨"A", false, none, 0⟩)]⟩,
         [Eff.answerCallbackQuery "q1" "无权操作"]) :=
  ⟨by decide,
   c7_unauthorized_no_mutation ⟨"q1", some ⟨5⟩, some "toggle:global", none⟩
     ⟨false, [(3, ⟨"A", false, none, 0⟩)]⟩ ⟨none⟩ [1, 2] 0 (by decide)⟩

/-! ### Claim C8 -/

/-- C8 counterexample: a stored blob that parses to the JSON string
`"hello"` is returned verbatim by `loadState` — not replaced by the fresh
default — and it is not a well-formed `State` object (`decodeState` rejects
it), refuting "in every case the value returned by loading is a well-formed
State object". -/
theorem c8_counterexample :
    loadState (KvBlob.parsed (Json.str "hello")) = Json.str "hello"
    ∧ decodeState (Json.str "hello") = none :=
  ⟨rfl, rfl⟩

/-- C8 as amended: state loading is total and never fatal, and an absent or
unparseable blob yields the fresh default `{ globalPaused: false, channels:
{} }` (which is a well-formed `State`); but a blob that parses is returned
verbatim with no shape validation, so the loaded value is well-formed only
when the stored JSON itself is. -/
theorem c8_load_state (wfJ : Json) :
    loadState KvBlob.absent = defaultStateJson
    ∧ loadState KvBlob.unparseable = defaultStateJson
    ∧ loadState (KvBlob.parsed wfJ) = wfJ
    ∧ decodeState defaultStateJson = some { globalPaused := false, channels := [] } :=
  ⟨rfl, rfl, rfl, rfl⟩

/-! ### Claim C3 -/

/-- C3 counterexample: with an empty registry (valid credential, truthy user
id) the `/api/kick` response is `{ success: true, message: "No channels to
kick from", results: [] }` with NO `summary` field at all — it does not
carry the claimed counters `total = 0, successCount = 0, failCount = 0`. -/
theorem c3_counterexample :
    (handleKickRequest (some "K") (some "K") (some ⟨some (Json.num 7)⟩) ⟨false, []⟩
        (fun _ => ⟨true, ""⟩)).1
      = KickResponse.ok { success := true, message := "No channels to kick from",
                          summary := none, results := [] } :=
  rfl

/-- C3 as amended: with an empty registry, a valid credential and a truthy
user id, the kick fan-out returns immediately — issuing no removal
directive — a 200 success response whose per-channel result list is empty
and which carries no counter summary (rather than explicit zero
counters). -/
theorem c3_kick_empty (apiKey key : String) (b : KickBody) (s : State)
    (ban : Int → BanOutcome)
    (hkey : key ≠ "") (hap : apiKey = key) (hu : jsTruthyField b.user_id = true)
    (hempty : s.channels = []) :
    handleKickRequest (some apiKey) (some key) (some b) s ban
      = (.ok { success := true, message := "No channels to kick from",
               summary := none, results := [] }, []) := by
  subst hap
  simp [handleKickRequest, hkey, hu, hempty]

/-- Witness instantiating `c3_kick_empty` on a concrete request. -/
theorem c3_kick_empty_witness :
    ("K" : String) ≠ "" ∧ ("K" : String) = "K"
    ∧ jsTruthyField (some (Json.num 7)) = true
    ∧ (⟨false, []⟩ : State).channels = []
    ∧ handleKickRequest (some "K") (some "K") (some ⟨some (Json.num 7)⟩) ⟨false, []⟩
        (fun _ => ⟨false, "err"⟩)
      = (.ok { success := true, message := "No channels to kick from",
               summary := none, results := [] }, []) :=
  ⟨by decide, rfl, by decide, rfl,
   c3_kick_empty "K" "K" ⟨some (Json.num 7)⟩ ⟨false, []⟩ (fun _ => ⟨false, "err"⟩)
     (by decide) rfl (by decide) rfl⟩

/-! ### Claim C10 -/

/-- C10: under a valid credential and a parseable JSON body, `/api/kick`
responds 400 `Missing user_id` exactly when `body.user_id` is falsy — so an
absent field, `null`, the number `0` and the empty string are all rejected —
and in that case the whole outcome (response, and no ban directive) is fixed
independently of the stored state and of the ban collaborator, i.e. the
rejection happens before any state is consulted. -/
theorem c10_kick_missing_user_id (key : String) (b : KickBody) (state : State)
    (ban : Int → BanOutcome) (hkey : key ≠ "") :
    ((handleKickRequest (some key) (some key) (some b) state ban).1
        = .error 400 "Missing user_id"
      ↔ jsTruthyField b.user_id = false)
    ∧ (jsTruthyField b.user_id = false →
        ∀ state₂ ban₂, handleKickRequest (some key) (some key) (some b) state₂ ban₂
          = (.error 400 "Missing user_id", [])) := by
  cases htr : jsTruthyField b.user_id with
  | false =>
    refine ⟨?_, ?_⟩
    · have hres : handleKickRequest (some key) (some key) (some b) state ban
          = (.error 400 "Missing user_id", []) := by
        simp [handleKickRequest, hkey, htr]
      rw [hres]
      simp
    · intro _ state₂ ban₂
      simp [handleKickRequest, hkey, htr]
  | true =>
    refine ⟨?_, ?_⟩
    · constructor
      · intro h
        exfalso
        by_cases he : state.channels.isEmpty <;>
          simp [handleKickRequest, hkey, htr, he] at h
      · intro h
        exact Bool.noConfusion h
    · intro h
      exact Bool.noConfusion h

/-- Witness for C10: the numeric user id `0` is falsy, hence rejected as
missing, for any stored state. -/
theorem c10_kick_missing_user_id_witness :
    ("K" : String) ≠ ""
    ∧ (((handleKickRequest (some "K") (some "K") (some ⟨some (Json.num 0)⟩)
          ⟨false, [(1, ⟨"A", false, none, 0⟩)]⟩ (fun _ => ⟨true, ""⟩)).1
        = .error 400 "Missing user_id")
      ↔ jsTruthyField (some (Json.num 0)) = false)
    ∧ (jsTruthyField (some (Json.num 0)) = false →
        ∀ state₂ ban₂, handleKickRequest (some "K") (some "K") (some ⟨some (Json.num 0)⟩) state₂ ban₂
          = (.error 400 "Missing user_id", [])) :=
  ⟨by decide,
   (c10_kick_missing_user_id "K" ⟨some (Json.num 0)⟩
      ⟨false, [(1, ⟨"A", false, none, 0⟩)]⟩ (fun _ => ⟨true, ""⟩) (by decide)).1,
   (c10_kick_missing_user_id "K" ⟨some (Json.num 0)⟩
      ⟨false, [(1, ⟨"A", false, none, 0⟩)]⟩ (fun _ => ⟨true, ""⟩) (by decide)).2⟩

/-! ### Claim C2 -/

/-- C2 counterexample: an authorized channel-scoped toggle naming an unknown
identifier, on a callback whose originating message reference IS present
(chat id 1, message id 2), produces only the not-found acknowledgment — no
`editMessageReplyMarkup` re-render is triggered, contradicting the claim
that every authorized toggle (including the unknown-identifier case)
re-renders unless the message reference is missing. -/
theorem c2_counterexample :
    handleCallbackQuery
        ⟨"cb1", some ⟨7⟩, some "toggle:999", some ⟨some ⟨1, "private", none, none⟩, some 2⟩⟩
        ⟨false, []⟩ ⟨some 50⟩
      = (⟨false, []⟩, [Eff.answerCallbackQuery "cb1" "频道不存在"]) :=
  rfl

/-- C2 as amended: the global toggle and a channel toggle on an existing
record always commit their mutation and re-render the keyboard of the new
state onto the originating message — the re-render alone being skipped when
the message reference is missing (or falsy) — whereas a channel toggle with
an unknown identifier commits nothing and triggers no re-render, producing
only the not-found acknowledgment. -/
theorem c2_toggle_rerender (cb : CallbackQuery) (s : State) (env : Env) :
    C2Prop cb s env := by
  refine ⟨?_, ?_, ?_, ?_, ?_⟩
  · intro hd
    simp [handleCallbackQuery, hd]
  · intro d cid ch hd hne hsw hparse hlk
    simp [handleCallbackQuery, hd, hne, hsw, hparse, hlk]
  · intro d cid hd hne hsw hparse hlk
    simp [handleCallbackQuery, hd, hne, hsw, hparse, hlk]
  · intro s' msg c mi hm hc hmi hnz
    simp [updateManageMessage, hm, hc, hmi, hnz]
  · intro s' hm
    simp [updateManageMessage, hm]

/-- Witness instantiating `c2_toggle_rerender` on a concrete callback. -/
theorem c2_toggle_rerender_witness :
    C2Prop ⟨"cb2", some ⟨7⟩, some "toggle:42", some ⟨some ⟨10, "private", none, none⟩, some 3⟩⟩
      ⟨false, [(42, ⟨"N", false, none, 0⟩)]⟩ ⟨some 999⟩ :=
  c2_toggle_rerender _ _ _

/-! ### Claim C9 -/

/-- C9: applying the global toggle twice returns the state — `globalPaused`
and every other field — to its original value, and for a channel present in
the registry, applying that channel's toggle twice likewise returns exactly
the original state. -/
theorem c9_toggle_involution (cb : CallbackQuery) (s : State) (env : Env) :
    (cb.data = some "toggle:global" →
      (handleCallbackQuery cb (handleCallbackQuery cb s env).1 env).1 = s)
    ∧ (∀ d cid ch, cb.data = some d → d ≠ "toggle:global" → strStarts d "toggle:" = true →
        parseChannelId d = some cid → lookupChan s.channels cid = some ch →
        (handleCallbackQuery cb (handleCallbackQuery cb s env).1 env).1 = s) := by
  constructor
  · intro hd
    simp [handleCallbackQuery, hd]
  · intro d cid ch hd hne hsw hparse hlk
    have h1 : (handleCallbackQuery cb s env).1
        = { s with channels := setChan s.channels cid { ch with paused := !ch.paused } } := by
      simp [handleCallbackQuery, hd, hne, hsw, hparse, hlk]
    have hlk2 : lookupChan (setChan s.channels cid { ch with paused := !ch.paused }) cid
        = some { ch with paused := !ch.paused } :=
      lookupChan_setChan _ hlk
    rw [h1]
    have h2 : (handleCallbackQuery cb
        { s with channels := setChan s.channels cid { ch with paused := !ch.paused } } env).1
        = { s with
              channels := setChan (setChan s.channels cid { ch with paused := !ch.paused }) cid { ch with paused := !(!ch.paused) } } := by
      simp [handleCallbackQuery, hd, hne, hsw, hparse, hlk2]
    rw [h2, setChan_setChan, Bool.not_not]
    have h3 : ({ ch with paused := ch.paused } : Chan) = ch := rfl
    rw [h3, setChan_self hlk]

/-- Witness instantiating `c9_toggle_involution`: a double global toggle and
a double channel toggle on a concrete state both restore it. -/
theorem c9_toggle_involution_witness :
    (handleCallbackQuery ⟨"a", some ⟨7⟩, some "toggle:global", none⟩
      (handleCallbackQuery ⟨"a", some ⟨7⟩, some "toggle:global", none⟩
        ⟨false, [(42, ⟨"N", true, none, 0⟩)]⟩ ⟨none⟩).1 ⟨none⟩).1
      = ⟨false, [(42, ⟨"N", true, none, 0⟩)]⟩
    ∧ (handleCallbackQuery ⟨"b", some ⟨7⟩, some "toggle:42", none⟩
      (handleCallbackQuery ⟨"b", some ⟨7⟩, some "toggle:42", none⟩
        ⟨false, [(42, ⟨"N", true, none, 0⟩)]⟩ ⟨none⟩).1 ⟨none⟩).1
      = ⟨false, [(42, ⟨"N", true, none, 0⟩)]⟩ :=
  ⟨(c9_toggle_involution ⟨"a", some ⟨7⟩, some "toggle:global", none⟩
      ⟨false, [(42, ⟨"N", true, none, 0⟩)]⟩ ⟨none⟩).1 rfl,
   (c9_toggle_involution ⟨"b", some ⟨7⟩, some "toggle:42", none⟩
      ⟨false, [(42, ⟨"N", true, none, 0⟩)]⟩ ⟨none⟩).2 "toggle:42" 42 ⟨"N", true, none, 0⟩
      rfl (by decide) (by decide) (by decide) rfl⟩

/-! ### Claim C6 -/

/-- C6: the membership state machine follows the four-row table — elevated
status with no record creates a default-flag record and notifies every
admin of the addition; elevated status with an existing record only
refreshes the title (per `refreshTitle`) and sends nothing; left/kicked
with a record deletes it and notifies every admin of the removal;
left/kicked with no record is a silent no-op. -/
theorem c6_membership_table (e : MemberEvent) (chat : Chat) (ncm : NewChatMember)
    (s : State) (env : Env) (adm : List Int)
    (hc : e.chat = some chat) (hn : e.new_chat_member = some ncm)
    (ht : targetIs env chat.id = false) :
    C6Prop e chat ncm s env adm := by
  constructor
  · intro hst
    constructor
    · intro hlk
      rw [show ({ s with channels := s.channels ++ [(chat.id, freshChan chat)] } : State)
            = (ensureChannel s chat).1 from by rw [ensureChannel_absent hlk]]
      simp [handleMyChatMember, hc, hn, ht, hst, hlk]
    · intro r hlk
      rw [show ({ s with channels := setChan s.channels chat.id (refreshTitle r chat) } : State)
            = (ensureChannel s chat).1 from (ensureChannel_found_state hlk).symm]
      simp [handleMyChatMember, hc, hn, ht, hst, hlk]
  · intro hst
    have hnotadm : ¬ (ncm.status = "administrator" ∨ ncm.status = "member") := by
      rcases hst with h | h <;> rw [h] <;> decide
    constructor
    · intro r hlk
      simp [handleMyChatMember, hc, hn, ht, hnotadm, hst, hlk]
    · intro hlk
      simp [handleMyChatMember, hc, hn, ht, hnotadm, hst, hlk]

/-- Witness instantiating `c6_membership_table` on the spec's running
example (chat 42, title `News`). -/
theorem c6_membership_table_witness :
    (⟨some ⟨42, "channel", some "News", none⟩, some ⟨"administrator"⟩⟩ : MemberEvent).chat
        = some ⟨42, "channel", some "News", none⟩
    ∧ (⟨some ⟨42, "channel", some "News", none⟩, some ⟨"administrator"⟩⟩ : MemberEvent).new_chat_member
        = some ⟨"administrator"⟩
    ∧ targetIs ⟨some 999⟩ 42 = false
    ∧ C6Prop ⟨some ⟨42, "channel", some "News", none⟩, some ⟨"administrator"⟩⟩
        ⟨42, "channel", some "News", none⟩ ⟨"administrator"⟩ ⟨false, []⟩ ⟨some 999⟩ [7] :=
  ⟨rfl, rfl, by decide,
   c6_membership_table _ _ _ _ _ _ rfl rfl (by decide)⟩

/-! ### Claim C5 -/

/-- C5 counterexample: two unmuted grouped posts with the same group id
`"g"` on channel 42, 600000 ms apart (≥ the window), yield ONE notification,
not the claimed two: the record's pre-existing cursor (`lastGroupId = "g"`,
`lastGroupTimestamp = 0`) suppresses the first event, and only the second
notifies. -/
theorem c5_counterexample :
    dedupWindowMs ≤ 600001 - 1
    ∧ countSends (handleMessage ⟨some ⟨42, "channel", some "N", none⟩, none, some "g"⟩
        ⟨false, [(42, ⟨"N", false, some "g", 0⟩)]⟩ ⟨some 999⟩ [] 1).2 = 0
    ∧ countSends ((handleMessage ⟨some ⟨42, "channel", some "N", none⟩, none, some "g"⟩
        ⟨false, [(42, ⟨"N", false, some "g", 0⟩)]⟩ ⟨some 999⟩ [] 1).2
      ++ (handleMessage ⟨some ⟨42, "channel", some "N", none⟩, none, some "g"⟩
        (handleMessage ⟨some ⟨42, "channel", some "N", none⟩, none, some "g"⟩
          ⟨false, [(42, ⟨"N", false, some "g", 0⟩)]⟩ ⟨some 999⟩ [] 1).1 ⟨some 999⟩ [] 600001).2) = 1 :=
  ⟨by decide, rfl, rfl⟩

/-- C5 as amended: for a pair of unmuted grouped posts with the same truthy
group id on one monitored channel, (a) a second event strictly inside the
600000 ms window yields at most one notification; (b) when the gap reaches
the window AND the record's pre-existing cursor does not already suppress
the first event, both events notify; (c) the first event is dropped exactly
when the dedup gate (`groupId` equals the stored `lastGroupId` and the
elapsed time since `lastGroupTimestamp` is below the window) suppresses
it. -/
theorem c5_dedup_window (m1 m2 : MsgEvent) (chat chat2 : Chat) (g : String) (s : State)
    (env : Env) (adm : List Int) (t1 t2 : Nat)
    (hc1 : m1.chat = some chat) (hc2 : m2.chat = some chat2) (hid : chat2.id = chat.id)
    (hg1 : m1.media_group_id = some g) (hg2 : m2.media_group_id = some g) (hg0 : g ≠ "")
    (hty1 : chat.type ∈ ["channel", "supergroup", "group"])
    (hty2 : chat2.type ∈ ["channel", "supergroup", "group"])
    (htgt : targetIs env chat.id = false)
    (hglob : s.globalPaused = false)
    (hpause : ∀ r, lookupChan s.channels chat.id = some r → r.paused = false) :
    C5Prop m1 m2 chat g s env adm t1 t2 := by
  have htgt2 : targetIs env chat2.id = false := by rw [hid]; exact htgt
  have hgp1 : (ensureChannel s chat).1.globalPaused = false := by
    rw [ensureChannel_globalPaused]; exact hglob
  have hcp1 : (ensureChannel s chat).2.paused = false := by
    rcases hl : lookupChan s.channels chat.id with _ | r
    · rw [ensureChannel_absent hl]
      rfl
    · rw [(ensureChannel_found_fields hl).1]
      exact hpause r hl
  have hp1 : ¬ ((ensureChannel s chat).1.globalPaused ∨ (ensureChannel s chat).2.paused) := by
    simp [hgp1, hcp1]
  have h1 := handleMessage_grouped m1 chat g s env adm t1 hc1 hg1 hg0 hty1 htgt
  rw [if_neg hp1] at h1
  by_cases hs1 : dedupSuppress (ensureChannel s chat).2 g t1 = true
  · rw [if_pos hs1] at h1
    refine ⟨?_, ?_, ?_⟩
    · intro _
      rw [h1]
      simpa [countSends] using
        countSends_handleMessage_le_one m2 (ensureChannel s chat).1 env adm t2
    · intro hns _
      exact absurd hs1 hns
    · rw [h1]
      simp [countSends, hs1]
  · rw [if_neg hs1] at h1
    have hlk1 : lookupChan (handleMessage m1 s env adm t1).1.channels chat2.id
        = some { (ensureChannel s chat).2 with lastMediaGroupId := some g, lastMediaGroupTs := t1 } := by
      rw [hid, h1]
      exact lookupChan_setChan _ (ensureChannel_lookup_self s chat)
    have hgp2 : (ensureChannel (handleMessage m1 s env adm t1).1 chat2).1.globalPaused = false := by
      rw [ensureChannel_globalPaused, h1]
      exact hgp1
    have hf2 := ensureChannel_found_fields hlk1
    have hcp2 : (ensureChannel (handleMessage m1 s env adm t1).1 chat2).2.paused = false := by
      rw [hf2.1]
      exact hcp1
    have hp2 : ¬ ((ensureChannel (handleMessage m1 s env adm t1).1 chat2).1.globalPaused
        ∨ (ensureChannel (handleMessage m1 s env adm t1).1 chat2).2.paused) := by
      simp [hgp2, hcp2]
    have h2 := handleMessage_grouped m2 chat2 g (handleMessage m1 s env adm t1).1 env adm t2
      hc2 hg2 hg0 hty2 htgt2
    rw [if_neg hp2] at h2
    have hsup2 : dedupSuppress (ensureChannel (handleMessage m1 s env adm t1).1 chat2).2 g t2
        = decide (t2 - t1 < dedupWindowMs) := by
      unfold dedupSuppress
      rw [hf2.2.1, hf2.2.2]
      simp
    refine ⟨?_, ?_, ?_⟩
    · intro hlt
      have hs2 : dedupSuppress (ensureChannel (handleMessage m1 s env adm t1).1 chat2).2 g t2
          = true := by
        rw [hsup2]
        simpa using hlt
      rw [if_pos hs2] at h2
      rw [h2, h1]
      simp [countSends, isSend]
    · intro _ hge
      have hs2 : ¬ dedupSuppress (ensureChannel (handleMessage m1 s env adm t1).1 chat2).2 g t2
          = true := by
        rw [hsup2]
        simpa using Nat.not_lt.mpr hge
      rw [if_neg hs2] at h2
      rw [h2, h1]
      simp [countSends, isSend]
    · rw [h1]
      simp [countSends, isSend, hs1]

/-- Witness instantiating `c5_dedup_window` on a concrete pair of grouped
posts (fresh registry, channel 42, group id `"g"`, times 10 and 20). -/
theorem c5_dedup_window_witness :
    (⟨some ⟨42, "channel", some "N", none⟩, none, some "g"⟩ : MsgEvent).chat
        = some ⟨42, "channel", some "N", none⟩
    ∧ (⟨some ⟨42, "channel", some "N", none⟩, none, some "g"⟩ : MsgEvent).media_group_id
        = some "g"
    ∧ ("g" : String) ≠ ""
    ∧ ("channel" : String) ∈ ["channel", "supergroup", "group"]
    ∧ targetIs ⟨some 999⟩ 42 = false
    ∧ (⟨false, []⟩ : State).globalPaused = false
    ∧ (∀ r, lookupChan (⟨false, []⟩ : State).channels 42 = some r → r.paused = false)
    ∧ C5Prop ⟨some ⟨42, "channel", some "N", none⟩, none, some "g"⟩
        ⟨some ⟨42, "channel", some "N", none⟩, none, some "g"⟩
        ⟨42, "channel", some "N", none⟩ "g" ⟨false, []⟩ ⟨some 999⟩ [] 10 20 :=
  ⟨rfl, rfl, by decide, by decide, by decide, rfl,
   by intro r hr; simp [lookupChan] at hr,
   c5_dedup_window _ _ ⟨42, "channel", some "N", none⟩ ⟨42, "channel", some "N", none⟩
     "g" ⟨false, []⟩ ⟨some 999⟩ [] 10 20 rfl rfl rfl rfl rfl (by decide) (by decide)
     (by decide) (by decide) rfl (by intro r hr; simp [lookupChan] at hr)⟩

/-! ### Claim C4 -/

theorem ensureChannel_keys {s : State} {c : Chat} {t : Int}
    (hne : c.id ≠ t) (hs : t ∉ keysOf s.channels) :
    t ∉ keysOf (ensureChannel s c).1.channels := by
  rcases h : lookupChan s.channels c.id with _ | r
  · rw [ensureChannel_absent h]
    intro hmem
    simp only [keysOf, List.map_append, List.mem_append, List.map_cons, List.map_nil,
      List.mem_singleton] at hmem
    rcases hmem with hmem | hmem
    · exact hs hmem
    · exact hne hmem.symm
  · rw [ensureChannel_found_state h]
    intro hmem
    rw [show keysOf (setChan s.channels c.id (refreshTitle r c)) = keysOf s.channels from
      keysOf_setChan _ _ _] at hmem
    exact hs hmem

theorem handleMyChatMember_keys (e : MemberEvent) (s : State) (env : Env)
    (adm : List Int) (t : Int)
    (henv : env.TARGET_CHAT_ID = some t) (hs : t ∉ keysOf s.channels) :
    t ∉ keysOf (handleMyChatMember e s env adm).1.channels := by
  rcases hc : e.chat with _ | chat
  · simpa [handleMyChatMember, hc] using hs
  rcases hn : e.new_chat_member with _ | ncm
  · simpa [handleMyChatMember, hc, hn] using hs
  by_cases htg : targetIs env chat.id = true
  · simpa [handleMyChatMember, hc, hn, htg] using hs
  have hne : chat.id ≠ t := by
    intro heq
    apply htg
    unfold targetIs
    rw [henv]
    simp [heq]
  simp only [handleMyChatMember, hc, hn]
  rw [if_neg htg]
  split_ifs with h1 h2 h3 h4
  · exact ensureChannel_keys hne hs
  · exact ensureChannel_keys hne hs
  · intro hmem
    exact hs (keysOf_removeChan_subset hmem)
  · exact hs
  · exact hs

theorem handleMessage_keys (m : MsgEvent) (s : State) (env : Env)
    (adm : List Int) (now : Nat) (t : Int)
    (henv : env.TARGET_CHAT_ID = some t) (hs : t ∉ keysOf s.channels) :
    t ∉ keysOf (handleMessage m s env adm now).1.channels := by
  rcases hc : m.chat with _ | chat
  · simpa [handleMessage, hc] using hs
  by_cases htg : targetIs env chat.id = true
  · rcases hg : m.media_group_id with _ | g <;>
      simp only [handleMessage, hc, hg] <;>
      split_ifs <;> first
        | exact hs
        | (exfalso; simp_all)
  have hne : chat.id ≠ t := by
    intro heq
    apply htg
    unfold targetIs
    rw [henv]
    simp [heq]
  rcases hg : m.media_group_id with _ | g <;>
    simp only [handleMessage, hc, hg] <;>
    split_ifs <;> first
      | exact hs
      | exact ensureChannel_keys hne hs
      | (intro hmem;
         rw [show keysOf (setChan (ensureChannel s chat).1.channels chat.id
               { (ensureChannel s chat).2 with lastMediaGroupId := some g, lastMediaGroupTs := now })
             = keysOf (ensureChannel s chat).1.channels from keysOf_setChan _ _ _] at hmem;
         exact ensureChannel_keys hne hs hmem)

theorem handleCallbackQuery_keys (cb : CallbackQuery) (s : State) (env : Env) :
    keysOf (handleCallbackQuery cb s env).1.channels = keysOf s.channels := by
  by_cases hd : cb.data.getD "" = "toggle:global"
  · simp [handleCallbackQuery, hd]
  by_cases hsw : strStarts (cb.data.getD "") "toggle:" = true
  · simp only [handleCallbackQuery, hd, hsw]
    rcases hp : parseChannelId (cb.data.getD "") with _ | cid
    · simp [hp]
    · simp only [hp]
      rcases hl : lookupChan s.channels cid with _ | ch
      · simp [hl]
      · simp [hl, keysOf_setChan]
  · simp [handleCallbackQuery, hd, hsw]

theorem processUpdate_keys (u : UpdateEvent) (s : State) (env : Env)
    (adm : List Int) (now : Nat) (t : Int)
    (henv : env.TARGET_CHAT_ID = some t) (hs : t ∉ keysOf s.channels) :
    t ∉ keysOf (processUpdate u s env adm now).1.channels := by
  cases u with
  | myChatMember e => exact handleMyChatMember_keys e s env adm t henv hs
  | callbackQuery cb =>
    by_cases ha : isAdmin cb.fromUser adm = true
    · have hred : processUpdate (.callbackQuery cb) s env adm now
          = handleCallbackQuery cb s env := by
        simp [processUpdate, ha]
      rw [hred, handleCallbackQuery_keys]
      exact hs
    · have hred : processUpdate (.callbackQuery cb) s env adm now
          = (s, [Eff.answerCallbackQuery cb.id "无权操作"]) := by
        simp [processUpdate, ha]
      rw [hred]
      exact hs
  | message m => exact handleMessage_keys m s env adm now t henv hs

/-- C4: with a configured target channel id, the target id never appears as
a key of the registry: starting from any state not containing it, no
sequence of webhook events (membership changes, posts, interactive actions)
can introduce it — both `handleMyChatMember` and `handleMessage` discard
target-chat events before any record is created, and the callback path never
adds keys. -/
theorem c4_target_never_registered (t : Int) (env : Env) (adm : List Int)
    (evs : List (UpdateEvent × Nat)) (s : State)
    (henv : env.TARGET_CHAT_ID = some t) (hs : t ∉ keysOf s.channels) :
    t ∉ keysOf (runUpdates evs s env adm).channels := by
  induction evs generalizing s with
  | nil => exact hs
  | cons ev rest ih =>
    exact ih _ (processUpdate_keys ev.1 s env adm ev.2 t henv hs)

/-- Witness for C4: a concrete trace that tries to add the target chat 99
both via a membership event and via a post, then adds an ordinary chat 42;
99 never becomes a registry key. -/
theorem c4_target_never_registered_witness :
    (⟨some 99⟩ : Env).TARGET_CHAT_ID = some 99
    ∧ (99 : Int) ∉ keysOf (⟨false, []⟩ : State).channels
    ∧ (99 : Int) ∉ keysOf (runUpdates
        [(.myChatMember ⟨some ⟨99, "channel", some "T", none⟩, some ⟨"administrator"⟩⟩, 5),
         (.message ⟨some ⟨99, "channel", some "T", none⟩, none, none⟩, 6),
         (.myChatMember ⟨some ⟨42, "channel", some "News", none⟩, some ⟨"administrator"⟩⟩, 7)]
        ⟨false, []⟩ ⟨some 99⟩ [7]).channels :=
  ⟨rfl, by decide,
   c4_target_never_registered 99 ⟨some 99⟩ [7]
     [(.myChatMember ⟨some ⟨99, "channel", some "T", none⟩, some ⟨"administrator"⟩⟩, 5),
      (.message ⟨some ⟨99, "channel", some "T", none⟩, none, none⟩, 6),
      (.myChatMember ⟨some ⟨42, "channel", some "News", none⟩, some ⟨"administrator"⟩⟩, 7)]
     ⟨false, []⟩ rfl (by decide)⟩

end Worker
